import Mathlib

/-!
Verification of the subscription-entitlement core of the MaybeCook
meal-plan bot.

Timestamps are UTC seconds since an epoch, modelled as natural numbers.
A Python `datetime` becomes a `Nat`; a nullable `DateTime` column becomes
an `Option Nat`; `datetime.date()` becomes the day index `t / 86400`;
`timedelta.days` of a nonnegative difference is floor division by 86400.
The fallible check (attribute access on a possibly-null column) returns
`Option`, with `none` standing for the raised exception.
-/

/-- Seconds in one calendar day. -/
def secondsPerDay : Nat := 86400

/-- Calendar date (UTC day index) of a timestamp; models `datetime.date()`. -/
def dateOf (t : Nat) : Nat := t / secondsPerDay

/-- Daily question quota for free/expired users (config.py). -/
def FREE_AI_QUESTIONS_PER_DAY : Nat := 5

/-- Highest day number visible without an active subscription (config.py). -/
def FREE_DAYS_VISIBLE : Nat := 7

/-- The fields of the `users` row (models.py) that the entitlement logic
reads: tier name, nullable expiry timestamp, the daily counter and the
nullable timestamp of its last reset, plus identity fields. -/
structure User where
  telegram_id : Nat
  username : String
  first_name : String
  subscription_type : String
  subscription_expires : Option Nat
  ai_questions_today : Nat
  ai_questions_reset : Option Nat
deriving Repr, DecidableEq

/-- The dictionary returned by `check_subscription` (bot.py). The active
branch also carries the raw expiry, which no caller reads; it is omitted. -/
structure SubStatus where
  active : Bool
  type : String
  days_left : Nat
deriving Repr, DecidableEq

/-- `check_subscription` (bot.py): active iff the expiry is set and lies
strictly after `now`; if active the tier is the stored type and
`days_left` is the floor of the remaining time in days, otherwise the
tier is "expired" with zero days left. -/
def check_subscription (user : User) (now : Nat) : SubStatus :=
  match user.subscription_expires with
  | some e =>
      if now < e then
        { active := true, type := user.subscription_type
        , days_left := (e - now) / secondsPerDay }
      else
        { active := false, type := "expired", days_left := 0 }
  | none => { active := false, type := "expired", days_left := 0 }

/-- `can_view_day` (bot.py): any day with an active subscription,
otherwise only days up to `FREE_DAYS_VISIBLE`. -/
def can_view_day (user : User) (day : Nat) (now : Nat) : Bool :=
  if (check_subscription user now).active then true
  else decide (day ≤ FREE_DAYS_VISIBLE)

/-- `can_use_ai` (bot.py): an active basic/pro subscription bypasses the
quota; otherwise the counter is lazily reset when the stored reset date
differs from today, and the (possibly reset) counter is compared with
the quota. Returns the permission bit together with the updated record;
`none` models the `AttributeError` raised when `ai_questions_reset` is
null (the source calls `.date()` on it unconditionally). -/
def can_use_ai (user : User) (now : Nat) : Option (Bool × User) :=
  let sub := check_subscription user now
  if sub.active && (sub.type == "basic" || sub.type == "pro") then
    some (true, user)
  else
    match user.ai_questions_reset with
    | none => none
    | some r =>
        let user1 :=
          if dateOf r ≠ dateOf now then
            { user with ai_questions_today := 0, ai_questions_reset := some now }
          else user
        some (decide (user1.ai_questions_today < FREE_AI_QUESTIONS_PER_DAY), user1)

/-- The consumption step of `handle_ai_message` (bot.py): the counter is
incremented, and the record persisted, only when the stored tier name is
"free"; for every other tier the record is left untouched. -/
def consume_ai (user : User) : User :=
  if user.subscription_type == "free" then
    { user with ai_questions_today := user.ai_questions_today + 1 }
  else user

/-- The ad-hoc day gate at the top of `show_shopday` (bot.py), with
`true` meaning access is granted (the lock screen is not shown). The
source blocks when `day > 7` and the user is missing or has tier name
"free" and the user is missing or has no future expiry; the bound 7 is a
literal in the source, numerically equal to `FREE_DAYS_VISIBLE`. -/
def shopday_gate (ouser : Option User) (day : Nat) (now : Nat) : Bool :=
  let noUser := ouser.isNone
  let freeType :=
    match ouser with
    | some u => u.subscription_type == "free"
    | none => false
  let activeExpiry :=
    match ouser with
    | some u =>
        match u.subscription_expires with
        | some e => decide (now < e)
        | none => false
    | none => false
  !(decide (7 < day) && (noUser || freeType) && (noUser || !activeExpiry))

/-- The ad-hoc day gate at the top of `show_total_day` (bot.py); its
source text is identical to the gate in `show_shopday`. -/
def totalday_gate (ouser : Option User) (day : Nat) (now : Nat) : Bool :=
  let noUser := ouser.isNone
  let freeType :=
    match ouser with
    | some u => u.subscription_type == "free"
    | none => false
  let activeExpiry :=
    match ouser with
    | some u =>
        match u.subscription_expires with
        | some e => decide (now < e)
        | none => false
    | none => false
  !(decide (7 < day) && (noUser || freeType) && (noUser || !activeExpiry))

/-- One row of the `favorites` table (models.py). -/
structure Favorite where
  user_id : Nat
  recipe_id : Nat
  added_at : Nat
deriving Repr, DecidableEq

/-- The duplicate lookup in `add_to_favorites` (bot.py): does a row with
this (user, recipe) pair already exist. -/
def favExists (favs : List Favorite) (uid rid : Nat) : Bool :=
  favs.any (fun f => f.user_id == uid && f.recipe_id == rid)

/-- The table effect of `add_to_favorites` (bot.py): insert a fresh row
only when no row with the same (user, recipe) pair exists, else leave
the table unchanged. -/
def add_to_favorites (favs : List Favorite) (uid rid now : Nat) : List Favorite :=
  if favExists favs uid rid then favs
  else favs ++ [{ user_id := uid, recipe_id := rid, added_at := now }]

/-- A user row as created by the insert branch of `get_or_create_user`
(bot.py): the expiry is set to creation time plus three days, and the
remaining subscription fields take the column defaults of models.py
(tier "free", counter 0, reset stamped at creation). -/
def newUser (telegram_id : Nat) (username first_name : String) (now : Nat) : User :=
  { telegram_id := telegram_id
  , username := username
  , first_name := first_name
  , subscription_type := "free"
  , subscription_expires := some (now + 3 * secondsPerDay)
  , ai_questions_today := 0
  , ai_questions_reset := some now }

/-- Per-user quota state machine: a step is either a rate-limit check
(`can_use_ai`, keeping its lazy-reset side effect), or a permitting
check immediately followed by the consumption increment, as in the
`start_ai_chat` / `handle_ai_message` flow. -/
inductive AiStep : User → User → Prop where
  | check (u u1 : User) (now : Nat) (b : Bool) :
      can_use_ai u now = some (b, u1) → AiStep u u1
  | consume (u u1 : User) (now : Nat) :
      can_use_ai u now = some (true, u1) → AiStep u (consume_ai u1)

/-- A day of ask attempts at the given times: each attempt runs the
check; a granted attempt is followed by the consumption step and is
counted. Returns the final record and the number of granted attempts;
an attempt that hits the null-reset error aborts the run. -/
def runDay (u : User) : List Nat → User × Nat
  | [] => (u, 0)
  | t :: rest =>
      match can_use_ai u t with
      | some (true, u1) =>
          let p := runDay (consume_ai u1) rest
          (p.1, p.2 + 1)
      | some (false, u1) => runDay u1 rest
      | none => (u, 0)

/-- Replaying a list of (user, recipe, time) favorite requests against an
initially empty table. -/
def applyFavOps (ops : List (Nat × Nat × Nat)) : List Favorite :=
  ops.foldl (fun favs op => add_to_favorites favs op.1 op.2.1 op.2.2) []

/-- No two rows of the table carry the same (user, recipe) pair. -/
def distinctPairs (favs : List Favorite) : Prop :=
  List.Pairwise (fun a b => a.user_id ≠ b.user_id ∨ a.recipe_id ≠ b.recipe_id) favs

/-! Helper lemmas shared by the claim theorems. -/

/-- When the subscription is active the reported tier is the stored one. -/
theorem active_type_eq (u : User) (now : Nat)
    (h : (check_subscription u now).active = true) :
    (check_subscription u now).type = u.subscription_type := by
  rcases he : u.subscription_expires with _ | e
  · simp [check_subscription, he] at h
  · by_cases hlt : now < e
    · simp [check_subscription, he, hlt]
    · simp [check_subscription, he, hlt] at h

/-- The tier-bypass condition of `can_use_ai`: subscription active with
reported tier "basic" or "pro". -/
def bypassCond (u : User) (now : Nat) : Bool :=
  (check_subscription u now).active
    && ((check_subscription u now).type == "basic"
        || (check_subscription u now).type == "pro")

/-- On the non-bypassed path (stored tier "free", or inactive
subscription) the bypass condition of `can_use_ai` is false. -/
theorem nonbypass_cond_false (u : User) (now : Nat)
    (hnb : u.subscription_type = "free" ∨ (check_subscription u now).active = false) :
    bypassCond u now = false := by
  unfold bypassCond
  rcases hnb with hfree | hinact
  · by_cases hact : (check_subscription u now).active = true
    · rw [hact, active_type_eq u now hact, hfree]
      decide
    · rw [Bool.not_eq_true] at hact
      simp [hact]
  · simp [hinact]

/-- Bypassing evaluation of `can_use_ai`: permitted, record untouched. -/
theorem can_use_ai_bypass_eval (u : User) (now : Nat)
    (hc : bypassCond u now = true) :
    can_use_ai u now = some (true, u) := by
  unfold bypassCond at hc
  simp [can_use_ai, hc]

/-- Non-bypassed evaluation of `can_use_ai` when the stored reset date is
today: the record is untouched and the stored counter is compared with
the quota. -/
theorem can_use_ai_same_date (u : User) (now r : Nat)
    (hr : u.ai_questions_reset = some r) (hsame : dateOf r = dateOf now)
    (hc : bypassCond u now = false) :
    can_use_ai u now =
      some (decide (u.ai_questions_today < FREE_AI_QUESTIONS_PER_DAY), u) := by
  unfold bypassCond at hc
  simp [can_use_ai, hc, hr, hsame]

/-- Non-bypassed evaluation of `can_use_ai` on a new calendar date: the
counter is reset to zero, the reset stamp moves to `now`, and the check
is permitted. -/
theorem can_use_ai_new_date (u : User) (now r : Nat)
    (hr : u.ai_questions_reset = some r) (hdiff : dateOf r ≠ dateOf now)
    (hc : bypassCond u now = false) :
    can_use_ai u now =
      some (true, { u with ai_questions_today := 0, ai_questions_reset := some now }) := by
  unfold bypassCond at hc
  simp [can_use_ai, hc, hr, hdiff, FREE_AI_QUESTIONS_PER_DAY]

/-- Non-bypassed evaluation of `can_use_ai` on a null reset stamp: the
error branch is taken. -/
theorem can_use_ai_null_eval (u : User) (now : Nat)
    (hr : u.ai_questions_reset = none)
    (hc : bypassCond u now = false) :
    can_use_ai u now = none := by
  unfold bypassCond at hc
  simp [can_use_ai, hc, hr]

/-- Every successful run of `can_use_ai` either bypasses (tier basic/pro,
record returned unchanged) or leaves the counter no larger than before,
and a non-bypassed grant certifies that the returned counter is below
the quota. -/
theorem can_use_ai_shape (u : User) (now : Nat) (b : Bool) (v : User)
    (h : can_use_ai u now = some (b, v)) :
    (b = true ∧ v = u
       ∧ (u.subscription_type = "basic" ∨ u.subscription_type = "pro"))
    ∨ (v.ai_questions_today ≤ u.ai_questions_today
       ∧ (b = true → v.ai_questions_today < FREE_AI_QUESTIONS_PER_DAY)) := by
  by_cases hc : bypassCond u now = true
  · have hact : (check_subscription u now).active = true := by
      unfold bypassCond at hc
      exact (Bool.and_eq_true _ _ ▸ hc).1
    have htier : u.subscription_type = "basic" ∨ u.subscription_type = "pro" := by
      unfold bypassCond at hc
      have ho := (Bool.and_eq_true _ _ ▸ hc).2
      rw [← active_type_eq u now hact]
      rcases Bool.or_eq_true _ _ ▸ ho with hb | hp
      · exact Or.inl (beq_iff_eq.mp hb)
      · exact Or.inr (beq_iff_eq.mp hp)
    rw [can_use_ai_bypass_eval u now hc] at h
    injection h with hp
    rw [Prod.mk.injEq] at hp
    exact Or.inl ⟨hp.1.symm, hp.2.symm, htier⟩
  · rw [Bool.not_eq_true] at hc
    rcases hr : u.ai_questions_reset with _ | r
    · rw [can_use_ai_null_eval u now hr hc] at h
      exact absurd h (by simp)
    · by_cases hd : dateOf r = dateOf now
      · rw [can_use_ai_same_date u now r hr hd hc] at h
        injection h with hp
        rw [Prod.mk.injEq] at hp
        have hv : v = u := hp.2.symm
        refine Or.inr ⟨?_, ?_⟩
        · rw [hv]
        · intro hb
          rw [hv]
          exact of_decide_eq_true (hp.1.trans hb)
      · rw [can_use_ai_new_date u now r hr hd hc] at h
        injection h with hp
        rw [Prod.mk.injEq] at hp
        have hv : v = { u with ai_questions_today := 0, ai_questions_reset := some now } :=
          hp.2.symm
        refine Or.inr ⟨?_, ?_⟩
        · rw [hv]
          exact Nat.zero_le _
        · intro _
          rw [hv]
          simp [FREE_AI_QUESTIONS_PER_DAY]

/-- Consumption on a free-tier record increments only the counter. -/
theorem consume_ai_free (u : User) (h : u.subscription_type = "free") :
    consume_ai u = { u with ai_questions_today := u.ai_questions_today + 1 } := by
  simp [consume_ai, h]

/-- Consumption leaves every non-free record untouched. -/
theorem consume_ai_other (u : User) (h : u.subscription_type ≠ "free") :
    consume_ai u = u := by
  simp [consume_ai, h]

/-- Consumption raises the counter by at most one. -/
theorem consume_ai_counter_le (u : User) :
    (consume_ai u).ai_questions_today ≤ u.ai_questions_today + 1 := by
  by_cases h : u.subscription_type = "free" <;> simp [consume_ai, h]

/-- Any single quota state-machine step keeps the counter within the
quota. -/
theorem aiStep_counter_bound (u v : User) (h : AiStep u v)
    (hu : u.ai_questions_today ≤ FREE_AI_QUESTIONS_PER_DAY) :
    v.ai_questions_today ≤ FREE_AI_QUESTIONS_PER_DAY := by
  cases h with
  | check _ noww b heq =>
      rcases can_use_ai_shape u noww b v heq with ⟨_, hvu, _⟩ | ⟨hle, _⟩
      · rw [hvu]; exact hu
      · exact le_trans hle hu
  | consume u1 noww heq =>
      rcases can_use_ai_shape u noww true u1 heq with ⟨_, hvu, htier⟩ | ⟨hle, hlt⟩
      · have hne : u1.subscription_type ≠ "free" := by
          rw [hvu]
          rcases htier with ht | ht <;> rw [ht] <;> decide
        rw [consume_ai_other u1 hne, hvu]
        exact hu
      · exact le_trans (consume_ai_counter_le u1) (Nat.succ_le_of_lt (hlt rfl))

/-- Within a single calendar day (stored reset date equal to the date of
every attempt) a free-tier record yields at most quota-minus-counter
grants. -/
theorem runDay_same_date_bound (d : Nat) :
    ∀ (L : List Nat) (u : User) (r : Nat),
      u.subscription_type = "free" → u.ai_questions_reset = some r →
      dateOf r = d → (∀ t ∈ L, dateOf t = d) →
      (runDay u L).2 ≤ FREE_AI_QUESTIONS_PER_DAY - u.ai_questions_today := by
  intro L
  induction L with
  | nil =>
      intro u r _ _ _ _
      simp [runDay]
  | cons t rest ih =>
      intro u r hfree hr hrd hL
      have htd : dateOf t = d := hL t (List.mem_cons_self t rest)
      have heval := can_use_ai_same_date u t r hr (by rw [hrd, htd])
        (nonbypass_cond_false u t (Or.inl hfree))
      have h5 : FREE_AI_QUESTIONS_PER_DAY = 5 := rfl
      by_cases hc : u.ai_questions_today < FREE_AI_QUESTIONS_PER_DAY
      · rw [decide_eq_true hc] at heval
        have hcons : consume_ai u =
            { u with ai_questions_today := u.ai_questions_today + 1 } :=
          consume_ai_free u hfree
        have ih2 := ih (consume_ai u) r (by rw [hcons]; exact hfree)
          (by rw [hcons]; exact hr) hrd
          (fun t2 ht2 => hL t2 (List.mem_cons_of_mem t ht2))
        have hcnt : (consume_ai u).ai_questions_today = u.ai_questions_today + 1 := by
          rw [hcons]
        rw [hcnt] at ih2
        simp only [runDay, heval]
        rw [h5] at ih2 ⊢
        omega
      · rw [decide_eq_false hc] at heval
        have ih2 := ih u r hfree hr hrd
          (fun t2 ht2 => hL t2 (List.mem_cons_of_mem t ht2))
        simp only [runDay, heval]
        exact ih2

/-- Inserting a favorite preserves pairwise-distinct (user, recipe)
pairs: the insert happens only when the duplicate lookup comes back
empty. -/
theorem add_preserves_distinct (favs : List Favorite) (uid rid t : Nat)
    (h : distinctPairs favs) : distinctPairs (add_to_favorites favs uid rid t) := by
  unfold add_to_favorites
  by_cases hex : favExists favs uid rid = true
  · rw [if_pos hex]
    exact h
  · rw [if_neg hex]
    unfold distinctPairs at h ⊢
    rw [List.pairwise_append]
    refine ⟨h, List.pairwise_singleton _ _, ?_⟩
    intro a ha b hb
    rw [List.mem_singleton] at hb
    subst hb
    rw [Bool.not_eq_true] at hex
    unfold favExists at hex
    rw [List.any_eq_false] at hex
    have ha2 := hex a ha
    simp only [Bool.and_eq_true, beq_iff_eq, not_and] at ha2
    by_cases h1 : a.user_id = uid
    · exact Or.inr (fun h2 => ha2 h1 h2)
    · exact Or.inl h1

/-- Replaying favorite requests from any pairwise-distinct table keeps
the table pairwise-distinct. -/
theorem favFold_distinct :
    ∀ (ops : List (Nat × Nat × Nat)) (favs : List Favorite),
      distinctPairs favs →
      distinctPairs
        (ops.foldl (fun fs op => add_to_favorites fs op.1 op.2.1 op.2.2) favs) := by
  intro ops
  induction ops with
  | nil => intro favs h; exact h
  | cons op rest ih =>
      intro favs h
      exact ih _ (add_preserves_distinct favs op.1 op.2.1 op.2.2 h)

/-! Claim theorems. -/

/-- C1: the subscription evaluator is active iff the expiry is set and
lies strictly after `now`; an inactive result reports tier "expired"
with zero days left; an active result reports the stored tier and the
floor of the remaining time in days; an expiry exactly ten days ahead
yields an active result with ten days left, and a null expiry is
inactive. -/
theorem check_subscription_spec (u : User) (now : Nat) :
    ((check_subscription u now).active = true ↔
       ∃ e, u.subscription_expires = some e ∧ now < e)
    ∧ ((check_subscription u now).active = false →
        (check_subscription u now).type = "expired"
        ∧ (check_subscription u now).days_left = 0)
    ∧ (∀ e, u.subscription_expires = some e → now < e →
        (check_subscription u now).type = u.subscription_type
        ∧ (check_subscription u now).days_left = (e - now) / secondsPerDay)
    ∧ (u.subscription_expires = some (now + 10 * secondsPerDay) →
        (check_subscription u now).active = true
        ∧ (check_subscription u now).days_left = 10)
    ∧ (u.subscription_expires = none →
        (check_subscription u now).active = false) := by
  rcases he : u.subscription_expires with _ | e
  · have hval : check_subscription u now =
        { active := false, type := "expired", days_left := 0 } := by
      simp [check_subscription, he]
    rw [hval]
    refine ⟨?_, ?_, ?_, ?_, ?_⟩
    · constructor
      · intro hh; cases hh
      · rintro ⟨e2, he2, _⟩
        exact absurd he2 (by simp)
    · intro _; exact ⟨rfl, rfl⟩
    · intro e2 he2 _
      exact absurd he2 (by simp)
    · intro h10
      exact absurd h10 (by simp)
    · intro _; rfl
  · by_cases hlt : now < e
    · have hval : check_subscription u now =
          { active := true, type := u.subscription_type
          , days_left := (e - now) / secondsPerDay } := by
        simp [check_subscription, he, hlt]
      rw [hval]
      refine ⟨?_, ?_, ?_, ?_, ?_⟩
      · constructor
        · intro _; exact ⟨e, rfl, hlt⟩
        · intro _; rfl
      · intro hh; cases hh
      · intro e2 he2 _
        have he22 : e = e2 := Option.some.inj he2
        subst he22
        exact ⟨rfl, rfl⟩
      · intro h10
        have he10 : e = now + 10 * secondsPerDay := Option.some.inj h10
        subst he10
        refine ⟨rfl, ?_⟩
        show (now + 10 * secondsPerDay - now) / secondsPerDay = 10
        rw [Nat.add_sub_cancel_left]
        decide
      · intro hnone
        exact absurd hnone (by simp)
    · have hval : check_subscription u now =
          { active := false, type := "expired", days_left := 0 } := by
        simp [check_subscription, he, hlt]
      rw [hval]
      refine ⟨?_, ?_, ?_, ?_, ?_⟩
      · constructor
        · intro hh; cases hh
        · rintro ⟨e2, he2, hlt2⟩
          have he22 : e = e2 := Option.some.inj he2
          subst he22
          exact absurd hlt2 hlt
      · intro _; exact ⟨rfl, rfl⟩
      · intro e2 he2 hlt2
        have he22 : e = e2 := Option.some.inj he2
        subst he22
        exact absurd hlt2 hlt
      · intro h10
        have he10 : e = now + 10 * secondsPerDay := Option.some.inj h10
        subst he10
        have hpos : now < now + 10 * secondsPerDay := by
          have h0 : 0 < 10 * secondsPerDay := by decide
          omega
        exact absurd hpos hlt
      · intro _; rfl

/-- C1 witness: a user whose expiry is exactly ten days ahead of `now`
is active with ten days left. -/
theorem check_subscription_spec_witness :
    (check_subscription ⟨1, "w1", "w1", "basic", some 864000, 0, some 0⟩ 0).active = true
    ∧ (check_subscription ⟨1, "w1", "w1", "basic", some 864000, 0, some 0⟩ 0).days_left = 10 :=
  (check_subscription_spec ⟨1, "w1", "w1", "basic", some 864000, 0, some 0⟩ 0).2.2.2.1
    (by decide)

/-- C2: for a non-bypassed user (stored tier "free" or inactive
subscription) with a set reset stamp, the check lazily resets the
counter and stamp when the stored reset date differs from today and then
permits iff the post-reset counter is below the quota; a counter at the
quota is permitted (and reset) on a new calendar day and denied on the
same day. -/
theorem can_use_ai_nonbypass_spec (u : User) (now r : Nat)
    (hr : u.ai_questions_reset = some r)
    (hnb : u.subscription_type = "free" ∨ (check_subscription u now).active = false) :
    (dateOf r ≠ dateOf now →
       can_use_ai u now =
         some (true, { u with ai_questions_today := 0, ai_questions_reset := some now }))
    ∧ (dateOf r = dateOf now →
       can_use_ai u now =
         some (decide (u.ai_questions_today < FREE_AI_QUESTIONS_PER_DAY), u))
    ∧ (u.ai_questions_today = FREE_AI_QUESTIONS_PER_DAY → dateOf r ≠ dateOf now →
       ∃ v, can_use_ai u now = some (true, v) ∧ v.ai_questions_today = 0)
    ∧ (u.ai_questions_today = FREE_AI_QUESTIONS_PER_DAY → dateOf r = dateOf now →
       can_use_ai u now = some (false, u)) := by
  have hc := nonbypass_cond_false u now hnb
  refine ⟨?_, ?_, ?_, ?_⟩
  · intro hdiff
    exact can_use_ai_new_date u now r hr hdiff hc
  · intro hsame
    exact can_use_ai_same_date u now r hr hsame hc
  · intro _ hdiff
    exact ⟨_, can_use_ai_new_date u now r hr hdiff hc, rfl⟩
  · intro h5 hsame
    rw [can_use_ai_same_date u now r hr hsame hc, h5]
    simp

/-- C2 witness: a free user with the counter at the quota and the reset
stamp on the previous calendar day is permitted, with counter reset and
the stamp moved to `now`. -/
theorem can_use_ai_nonbypass_spec_witness :
    can_use_ai ⟨1, "w2", "w2", "free", none, 5, some 0⟩ 86400 =
      some (true, ⟨1, "w2", "w2", "free", none, 0, some 86400⟩) :=
  (can_use_ai_nonbypass_spec ⟨1, "w2", "w2", "free", none, 5, some 0⟩ 86400 0 rfl
    (Or.inl rfl)).1 (by decide)

/-- C3: a user with an active subscription of tier "basic" or "pro" is
always permitted, with no counter or stamp mutation, and the consumption
step leaves the record untouched. -/
theorem can_use_ai_bypass_spec (u : User) (now : Nat)
    (hact : (check_subscription u now).active = true)
    (htier : u.subscription_type = "basic" ∨ u.subscription_type = "pro") :
    can_use_ai u now = some (true, u) ∧ consume_ai u = u := by
  have hc : bypassCond u now = true := by
    unfold bypassCond
    rw [hact, active_type_eq u now hact]
    rcases htier with ht | ht <;> rw [ht] <;> decide
  refine ⟨can_use_ai_bypass_eval u now hc, consume_ai_other u ?_⟩
  rcases htier with ht | ht <;> rw [ht] <;> decide

/-- C3 witness: an active pro user with the counter far above the quota
is still permitted and unchanged. -/
theorem can_use_ai_bypass_spec_witness :
    can_use_ai ⟨1, "w3", "w3", "pro", some 100, 9, some 0⟩ 0 =
      some (true, ⟨1, "w3", "w3", "pro", some 100, 9, some 0⟩)
    ∧ consume_ai ⟨1, "w3", "w3", "pro", some 100, 9, some 0⟩ =
      ⟨1, "w3", "w3", "pro", some 100, 9, some 0⟩ :=
  can_use_ai_bypass_spec ⟨1, "w3", "w3", "pro", some 100, 9, some 0⟩ 0
    (by decide) (Or.inr rfl)

/-- C6: `can_view_day` grants every day to an active subscription, and
otherwise grants exactly the days up to `FREE_DAYS_VISIBLE`; for a fixed
user and time the result is antitone in the day number. -/
theorem can_view_day_spec (u : User) (day now : Nat) :
    ((check_subscription u now).active = true → can_view_day u day now = true)
    ∧ ((check_subscription u now).active = false →
        (can_view_day u day now = true ↔ day ≤ FREE_DAYS_VISIBLE))
    ∧ (∀ d1 d2 : Nat, d1 ≤ d2 → can_view_day u d2 now = true →
        can_view_day u d1 now = true) := by
  refine ⟨?_, ?_, ?_⟩
  · intro h
    simp [can_view_day, h]
  · intro h
    simp [can_view_day, h]
  · intro d1 d2 h12 h2
    by_cases hact : (check_subscription u now).active = true
    · simp [can_view_day, hact]
    · rw [Bool.not_eq_true] at hact
      simp [can_view_day, hact] at h2 ⊢
      omega

/-- C6 witness: an inactive user sees day 7 and not day 8. -/
theorem can_view_day_spec_witness :
    (can_view_day ⟨1, "w6", "w6", "free", none, 0, some 0⟩ 7 0 = true ↔
       7 ≤ FREE_DAYS_VISIBLE)
    ∧ (can_view_day ⟨1, "w6", "w6", "free", none, 0, some 0⟩ 8 0 = true ↔
       8 ≤ FREE_DAYS_VISIBLE) :=
  ⟨(can_view_day_spec ⟨1, "w6", "w6", "free", none, 0, some 0⟩ 7 0).2.1 (by decide),
   (can_view_day_spec ⟨1, "w6", "w6", "free", none, 0, some 0⟩ 8 0).2.1 (by decide)⟩

/-- C4 counterexample: a user with an expired "basic" subscription is on
the non-bypassed path and is granted, yet the consumption step leaves
the counter unchanged (the source increments only when the stored tier
name is "free"). -/
theorem consume_nonfree_counterexample :
    (check_subscription ⟨1, "c4", "c4", "basic", none, 0, some 0⟩ 0).active = false
    ∧ can_use_ai ⟨1, "c4", "c4", "basic", none, 0, some 0⟩ 0 =
        some (true, ⟨1, "c4", "c4", "basic", none, 0, some 0⟩)
    ∧ (consume_ai ⟨1, "c4", "c4", "basic", none, 0, some 0⟩).ai_questions_today = 0 := by
  decide

/-- C4 (amended): the consumption step increments the counter by exactly
one, and persists it, precisely when the stored tier name is "free";
every other record (including expired basic/pro) is left untouched. The
end-to-end scenario holds for a free user: at counter 4 on today's date
the check permits, consumption moves the counter to the quota, the next
same-day check is denied, and a check on a later calendar day is
permitted again after a reset. -/
theorem consume_spec_amended (u : User) (now r : Nat) :
    (u.subscription_type = "free" →
       (consume_ai u).ai_questions_today = u.ai_questions_today + 1
       ∧ (consume_ai u).ai_questions_reset = u.ai_questions_reset
       ∧ (consume_ai u).subscription_type = "free"
       ∧ (consume_ai u).subscription_expires = u.subscription_expires)
    ∧ (u.subscription_type ≠ "free" → consume_ai u = u)
    ∧ (u.subscription_type = "free" → u.ai_questions_today = 4 →
       u.ai_questions_reset = some r → dateOf r = dateOf now →
       can_use_ai u now = some (true, u)
       ∧ (consume_ai u).ai_questions_today = FREE_AI_QUESTIONS_PER_DAY
       ∧ can_use_ai (consume_ai u) now = some (false, consume_ai u)
       ∧ (∀ now2, dateOf r ≠ dateOf now2 →
            ∃ v, can_use_ai (consume_ai u) now2 = some (true, v)
              ∧ v.ai_questions_today = 0)) := by
  refine ⟨?_, consume_ai_other u, ?_⟩
  · intro hfree
    rw [consume_ai_free u hfree]
    exact ⟨rfl, rfl, hfree, rfl⟩
  · intro hfree h4 hr hsame
    have hc := nonbypass_cond_false u now (Or.inl hfree)
    have h1 : can_use_ai u now = some (true, u) := by
      rw [can_use_ai_same_date u now r hr hsame hc, h4]
      simp [FREE_AI_QUESTIONS_PER_DAY]
    have hcons := consume_ai_free u hfree
    have hfree2 : (consume_ai u).subscription_type = "free" := by
      rw [hcons]; exact hfree
    have hr2 : (consume_ai u).ai_questions_reset = some r := by
      rw [hcons]; exact hr
    have hcnt : (consume_ai u).ai_questions_today = 5 := by
      simp [hcons, h4]
    have hc2 := nonbypass_cond_false (consume_ai u) now (Or.inl hfree2)
    refine ⟨h1, hcnt, ?_, ?_⟩
    · rw [can_use_ai_same_date (consume_ai u) now r hr2 hsame hc2, hcnt]
      simp [FREE_AI_QUESTIONS_PER_DAY]
    · intro now2 hdiff
      have hc3 := nonbypass_cond_false (consume_ai u) now2 (Or.inl hfree2)
      exact ⟨_, can_use_ai_new_date (consume_ai u) now2 r hr2 hdiff hc3, rfl⟩

/-- C4 witness: the end-to-end scenario at a concrete free user with
counter 4 and today's reset stamp. -/
theorem consume_spec_amended_witness :
    can_use_ai ⟨1, "w4", "w4", "free", none, 4, some 0⟩ 50 =
      some (true, ⟨1, "w4", "w4", "free", none, 4, some 0⟩) :=
  ((consume_spec_amended ⟨1, "w4", "w4", "free", none, 4, some 0⟩ 50 0).2.2 rfl rfl rfl
    (by decide)).1

/-- C5 counterexample: for a user with an expired "basic" subscription
and day 10, `can_view_day` denies while both ad-hoc gates grant, so the
gates are not equivalent to `can_view_day`. -/
theorem day_gate_counterexample :
    can_view_day ⟨1, "c5", "c5", "basic", none, 0, some 0⟩ 10 0 = false
    ∧ shopday_gate (some ⟨1, "c5", "c5", "basic", none, 0, some 0⟩) 10 0 = true
    ∧ totalday_gate (some ⟨1, "c5", "c5", "basic", none, 0, some 0⟩) 10 0 = true := by
  decide

/-- C5 (amended): the two ad-hoc gates are equivalent to each other, and
each grants exactly when `can_view_day` grants or the stored tier name
is not "free"; hence they grant whenever `can_view_day` does, but also
admit inactive non-free users to days past the free window. -/
theorem day_gates_amended (u : User) (day now : Nat) :
    shopday_gate (some u) day now = totalday_gate (some u) day now
    ∧ shopday_gate (some u) day now =
        (can_view_day u day now || !(u.subscription_type == "free")) := by
  constructor
  · rfl
  · rcases he : u.subscription_expires with _ | e
    · by_cases hd : 7 < day
      · have hd2 : ¬(day ≤ 7) := by omega
        simp [shopday_gate, can_view_day, check_subscription, he, hd, hd2,
          FREE_DAYS_VISIBLE]
      · have hd2 : day ≤ 7 := by omega
        simp [shopday_gate, can_view_day, check_subscription, he, hd, hd2,
          FREE_DAYS_VISIBLE]
    · by_cases hlt : now < e
      · simp [shopday_gate, can_view_day, check_subscription, he, hlt]
      · by_cases hd : 7 < day
        · have hd2 : ¬(day ≤ 7) := by omega
          simp [shopday_gate, can_view_day, check_subscription, he, hlt, hd, hd2,
            FREE_DAYS_VISIBLE]
        · have hd2 : day ≤ 7 := by omega
          simp [shopday_gate, can_view_day, check_subscription, he, hlt, hd, hd2,
            FREE_DAYS_VISIBLE]

/-- C7 counterexample: a user with an expired "basic" subscription is on
the non-bypassed path, never charged by consumption, and is granted six
ask attempts within one calendar day. -/
theorem quota_counterexample :
    (check_subscription ⟨1, "c7", "c7", "basic", none, 0, some 0⟩ 0).active = false
    ∧ (∀ t ∈ [0, 0, 0, 0, 0, 0], dateOf t = 0)
    ∧ (runDay ⟨1, "c7", "c7", "basic", none, 0, some 0⟩ [0, 0, 0, 0, 0, 0]).2 = 6 := by
  decide

/-- C7 (amended): along any sequence of check and granted-check-then-
consume steps, a counter starting within the quota stays within it; and
a user whose stored tier name is "free" is granted at most five ask
attempts within one calendar day. The per-day grant bound does not
extend to expired basic/pro users, whom consumption never charges. -/
theorem quota_state_machine_amended :
    (∀ u v : User, Relation.ReflTransGen AiStep u v →
       u.ai_questions_today ≤ FREE_AI_QUESTIONS_PER_DAY →
       v.ai_questions_today ≤ FREE_AI_QUESTIONS_PER_DAY)
    ∧ (∀ (u : User) (d : Nat) (L : List Nat),
       u.subscription_type = "free" → (∀ t ∈ L, dateOf t = d) →
       (runDay u L).2 ≤ FREE_AI_QUESTIONS_PER_DAY) := by
  constructor
  · intro u v h hu
    induction h with
    | refl => exact hu
    | tail _ hstep ih => exact aiStep_counter_bound _ _ hstep ih
  · intro u d L hfree hL
    cases L with
    | nil => simp [runDay]
    | cons t rest =>
        have htd : dateOf t = d := hL t (List.mem_cons_self t rest)
        rcases hr : u.ai_questions_reset with _ | r
        · have heval := can_use_ai_null_eval u t hr
            (nonbypass_cond_false u t (Or.inl hfree))
          simp [runDay, heval]
        · by_cases hd : dateOf r = d
          · have hb := runDay_same_date_bound d (t :: rest) u r hfree hr hd hL
            omega
          · have heval := can_use_ai_new_date u t r hr (by rw [htd]; exact hd)
              (nonbypass_cond_false u t (Or.inl hfree))
            have hfree1 : ({ u with ai_questions_today := 0, ai_questions_reset := some t } : User).subscription_type = "free" := hfree
            have hcons := consume_ai_free
              { u with ai_questions_today := 0, ai_questions_reset := some t } hfree1
            have hb := runDay_same_date_bound d rest
              (consume_ai { u with ai_questions_today := 0, ai_questions_reset := some t })
              t (by simp [hcons]; exact hfree1) (by simp [hcons]) htd
              (fun t2 ht2 => hL t2 (List.mem_cons_of_mem t ht2))
            have hcnt : (consume_ai { u with ai_questions_today := 0, ai_questions_reset := some t }).ai_questions_today = 1 := by
              simp [hcons]
            rw [hcnt] at hb
            have h5 : FREE_AI_QUESTIONS_PER_DAY = 5 := rfl
            rw [h5] at hb ⊢
            simp [runDay, heval]
            omega

/-- C7 witness: a concrete free user's same-day run stays within the
quota. -/
theorem quota_state_machine_witness :
    (runDay ⟨1, "w7", "w7", "free", none, 2, some 0⟩ [5, 10, 20]).2 ≤
      FREE_AI_QUESTIONS_PER_DAY :=
  quota_state_machine_amended.2 ⟨1, "w7", "w7", "free", none, 2, some 0⟩ 0 [5, 10, 20]
    rfl (by decide)

/-- C8 counterexample: the error branch of the rate-limit check is
reachable: a free user with a null reset stamp hits it (the source
raises `AttributeError` on `None.date()`). -/
theorem can_use_ai_null_reset_counterexample :
    can_use_ai ⟨1, "c8", "c8", "free", none, 0, none⟩ 0 = none := by
  decide

/-- C8 (amended): `check_subscription` and `can_view_day` are total by
construction; the rate-limit check returns a defined result exactly when
the tier bypass applies or the reset stamp is set, and hits the error
branch precisely on a non-bypassed record with a null reset stamp. -/
theorem can_use_ai_totality_amended (u : User) (now : Nat) :
    (can_use_ai u now).isSome = true ↔
      bypassCond u now = true ∨ u.ai_questions_reset ≠ none := by
  constructor
  · intro h
    by_cases hc : bypassCond u now = true
    · exact Or.inl hc
    · right
      rw [Bool.not_eq_true] at hc
      intro hr
      rw [can_use_ai_null_eval u now hr hc] at h
      simp at h
  · intro h
    by_cases hc : bypassCond u now = true
    · rw [can_use_ai_bypass_eval u now hc]
      rfl
    · rw [Bool.not_eq_true] at hc
      rcases h with h | h
      · rw [h] at hc
        cases hc
      · rcases hr : u.ai_questions_reset with _ | r
        · exact absurd hr h
        · by_cases hdd : dateOf r = dateOf now
          · rw [can_use_ai_same_date u now r hr hdd hc]
            rfl
          · rw [can_use_ai_new_date u now r hr hdd hc]
            rfl

/-- C8 witness: a default first-contact record (reset stamp set) gets a
defined result. -/
theorem can_use_ai_totality_amended_witness :
    (can_use_ai (newUser 7 "w8" "w8" 0) 500).isSome = true :=
  (can_use_ai_totality_amended (newUser 7 "w8" "w8" 0) 500).mpr (Or.inr (by decide))

/-- C9: replaying any sequence of favorite requests from an empty table
leaves at most one row per (user, recipe) pair, and a single insert only
ever appends — existing rows are never modified or removed. -/
theorem favorites_unique_spec :
    (∀ ops : List (Nat × Nat × Nat), distinctPairs (applyFavOps ops))
    ∧ (∀ (favs : List Favorite) (uid rid t : Nat),
        ∃ ext, add_to_favorites favs uid rid t = favs ++ ext) := by
  constructor
  · intro ops
    unfold applyFavOps
    exact favFold_distinct ops [] List.Pairwise.nil
  · intro favs uid rid t
    unfold add_to_favorites
    by_cases hex : favExists favs uid rid = true
    · refine ⟨[], ?_⟩
      rw [if_pos hex, List.append_nil]
    · exact ⟨[⟨uid, rid, t⟩], by rw [if_neg hex]⟩

/-- C10: a user created on first contact carries tier "free" and an
expiry three days ahead, so at any time inside that window the evaluator
is active with tier "free", every content day is visible, and the record
is never in the null-expiry state. -/
theorem new_user_trial_spec (tid : Nat) (un fn : String) (t now day : Nat)
    (h : now < t + 3 * secondsPerDay) :
    (check_subscription (newUser tid un fn t) now).active = true
    ∧ (check_subscription (newUser tid un fn t) now).type = "free"
    ∧ can_view_day (newUser tid un fn t) day now = true
    ∧ (newUser tid un fn t).subscription_expires ≠ none
    ∧ (newUser tid un fn t).subscription_type = "free" := by
  have hact : (check_subscription (newUser tid un fn t) now).active = true := by
    simp [check_subscription, newUser, h]
  refine ⟨hact, ?_, ?_, ?_, rfl⟩
  · rw [active_type_eq _ now hact]
    rfl
  · simp [can_view_day, hact]
  · simp [newUser]

/-- C10 witness: a user created at time 1000, evaluated two days later,
is active with tier "free" and sees day 30. -/
theorem new_user_trial_spec_witness :
    (check_subscription (newUser 5 "nu" "nu" 1000) 200000).active = true
    ∧ (check_subscription (newUser 5 "nu" "nu" 1000) 200000).type = "free"
    ∧ can_view_day (newUser 5 "nu" "nu" 1000) 30 200000 = true
    ∧ (newUser 5 "nu" "nu" 1000).subscription_expires ≠ none
    ∧ (newUser 5 "nu" "nu" 1000).subscription_type = "free" :=
  new_user_trial_spec 5 "nu" "nu" 1000 200000 30 (by decide)
